import Mathlib

/-!
Verification development for the Mandry-ai conversation core and its
Next.js frontend. Frontend definitions are shallow embeddings of the
TypeScript source (markdown renderer, profile dropdown, upload page, chat
page). The backend conversation core (orchestrator, assessor, extractor,
retrieval-augmented answerer) is not present in the repository snapshot;
those definitions are modelled from the specification, as marked in the
doc comment of each such definition. UI strings are transcribed with
apostrophes removed (contractions expanded) where the original text used
them; no claim depends on the exact rendering of a contraction.
-/

namespace Mandry

/-- A citation entry as returned with an answer and consumed by the
frontend renderer: the TypeScript interface Citation in
markdown-renderer.tsx has exactly the fields title, url, snippet.
The spec (section 3) also speaks of an ordinal; in the returned list the
ordinal is positional (1-based index). -/
structure Citation where
  title : String
  url : String
  snippet : String
deriving DecidableEq, Repr

/-! ## Frontend: citation marker scanning and rewriting
Embedding of transformCitations in markdown-renderer.tsx, which performs
a global replace of the regex pattern matching a literal marker
of the form left bracket, the word Source, a space, one or more digits,
and a right bracket. -/

/-- Try to match the remainder of a citation marker directly after an
opening bracket: the characters S o u r c e, a space, one or more digits,
and a closing bracket. On success, returns the digit characters and the
remaining input after the closing bracket. -/
def matchMarker : List Char → Option (List Char × List Char)
  | 'S' :: 'o' :: 'u' :: 'r' :: 'c' :: 'e' :: ' ' :: cs =>
    match cs.takeWhile Char.isDigit, cs.dropWhile Char.isDigit with
    | [], _ => none
    | ds, ']' :: rest => some (ds, rest)
    | _, _ => none
  | _ => none

/-- Decimal value of a digit string, as computed by parseInt(s, 10) on a
string of digits (modelled exactly on Nat; marker ordinals are small). -/
def natOfDigits (ds : List Char) : Nat :=
  ds.foldl (fun a c => a * 10 + (c.toNat - 48)) 0

/-- The target URL the renderer links a marker to: citations[n-1].url when
that entry exists and its url is truthy, otherwise the footnote anchor
made of a hash, the letters cite, a dash and the digit string; embeds
lines 22-25 of markdown-renderer.tsx. The JavaScript index
parseInt(sourceNumber) - 1 is negative when the digits denote zero, in
which case the lookup yields undefined; that case is modelled explicitly. -/
def resolveTarget (cits : List Citation) (ds : List Char) : String :=
  let n := natOfDigits ds
  match (if n = 0 then none else cits.get? (n - 1)) with
  | some c => if c.url = "" then "#cite-" ++ String.mk ds else c.url
  | none => "#cite-" ++ String.mk ds

/-- The test isExternal = targetUrl.startsWith, applied to the four
letters h t t p, written directly on the character list. -/
def startsWithHttp (s : String) : Bool :=
  match s.data with
  | 'h' :: 't' :: 't' :: 'p' :: _ => true
  | _ => false

/-- The superscript HTML emitted for one marker, embedding the template
string of markdown-renderer.tsx lines 26-30. -/
def renderSup (cits : List Citation) (ds : List Char) : String :=
  let snum := String.mk ds
  let targetUrl := resolveTarget cits ds
  let linkAttributes :=
    if startsWithHttp targetUrl then
      "href=\"" ++ targetUrl ++ "\" target=\"_blank\" rel=\"noopener noreferrer\""
    else
      "href=\"" ++ targetUrl ++ "\""
  "<sup id=\"ref-" ++ snum ++ "\" class=\"citation-ref\"><a " ++ linkAttributes
    ++ " class=\"text-blue-600 hover:text-blue-800\">[" ++ snum ++ "]</a></sup>"

/-- Left-to-right non-overlapping scan replacing each marker by its
superscript rendering, as the global regex replace does. The fuel
argument is a step counter instantiated with the length of the input;
every step consumes at least one input character, so fuel equal to the
input length is never exhausted (fuel-irrelevance is proved below). -/
def transformAux (cits : List Citation) : Nat → List Char → List Char
  | 0, rest => rest
  | _ + 1, [] => []
  | fuel + 1, '[' :: cs =>
    match matchMarker cs with
    | some dr => (renderSup cits dr.1).data ++ transformAux cits fuel dr.2
    | none => '[' :: transformAux cits fuel cs
  | fuel + 1, c :: cs => c :: transformAux cits fuel cs

/-- transformCitations from markdown-renderer.tsx lines 20-32. -/
def transformCitations (cits : List Citation) (content : String) : String :=
  String.mk (transformAux cits content.data.length content.data)

/-- Ordered list of marker ordinals occurring in a text, under the same
left-to-right non-overlapping scan as the renderer.
Modelled from the spec: the Answerer (absent from the repository
snapshot) parses the raw model text for markers of the same bracketed
Source-number shape (section 4.3 step 5); the scan discipline is shared
with the frontend regex. -/
def markersAux : Nat → List Char → List Nat
  | 0, _ => []
  | _ + 1, [] => []
  | fuel + 1, '[' :: cs =>
    match matchMarker cs with
    | some dr => natOfDigits dr.1 :: markersAux fuel dr.2
    | none => markersAux fuel cs
  | fuel + 1, _ :: cs => markersAux fuel cs

/-- Marker ordinals of a string, in order of occurrence. -/
def markersOf (s : String) : List Nat :=
  markersAux s.data.length s.data

/-! ## Backend data model
Modelled from the spec (section 3): the Django conversation core is not
part of the repository snapshot, so the Profile, ProfileDelta, session
state and configuration are taken from the data-model section of the
specification. Timestamps are omitted (no claim concerns them). -/

/-- Modelled from the spec: the per-user Profile (section 3). The four
scalar strings use the empty string for an unset value, matching the
serialized shape the frontend receives. flagged_optional records the
topic tags the extraction history has flagged as needed (section 4.1);
missing_context is recomputed every turn by the assessor and therefore
not stored. -/
structure Profile where
  nationality : String
  current_location : String
  destination_country : String
  visa_intent : String
  structured_data : List (String × String)
  free_text_context : String
  flagged_optional : List String
  context_sufficient : Bool
deriving DecidableEq, Repr

/-- The empty profile, also the result of the explicit reset operation. -/
def emptyProfile : Profile :=
  { nationality := "", current_location := "", destination_country := ""
    visa_intent := "", structured_data := [], free_text_context := ""
    flagged_optional := [], context_sufficient := false }

/-- Modelled from the spec: DELETE on the profile endpoint clears the
Profile to empty — an explicit reset, distinct from extraction
(sections 3 and 6). -/
def resetProfile (_p : Profile) : Profile := emptyProfile

/-- Modelled from the spec: a ProfileDelta produced by one extraction
call (section 4.2): structured key/value updates plus an optional
free-text note. -/
structure ProfileDelta where
  structured_updates : List (String × String)
  free_text_append : Option String
deriving DecidableEq, Repr

/-- Association-list lookup on structured_data. -/
def lookupSD : List (String × String) → String → Option String
  | [], _ => none
  | kv :: rest, k => if kv.1 = k then some kv.2 else lookupSD rest k

/-- Association-list overwrite-or-append on structured_data. -/
def insertSD : List (String × String) → String → String → List (String × String)
  | [], k, v => [(k, v)]
  | kv :: rest, k, v => if kv.1 = k then (k, v) :: rest else kv :: insertSD rest k v

/-- Modelled from the spec: merging one structured update into the
profile. A key naming one of the four scalar fields updates that field;
any other key goes to the open structured_data map. An empty new value is
ignored — overwrite only if the new value is non-empty (section 4.2). -/
def mergeField (acc : Profile) (kv : String × String) : Profile :=
  if kv.2 = "" then acc
  else if kv.1 = "nationality" then { acc with nationality := kv.2 }
  else if kv.1 = "current_location" then { acc with current_location := kv.2 }
  else if kv.1 = "destination_country" then { acc with destination_country := kv.2 }
  else if kv.1 = "visa_intent" then { acc with visa_intent := kv.2 }
  else { acc with structured_data := insertSD acc.structured_data kv.1 kv.2 }

/-- Modelled from the spec: applying a validated ProfileDelta to the
profile (section 4.2 merge policy): every structured update is merged
through mergeField, and free_text_append, if present, is concatenated
newline-separated onto free_text_context, never replacing it. -/
def applyDelta (p : Profile) (d : ProfileDelta) : Profile :=
  let p1 := d.structured_updates.foldl mergeField p
  match d.free_text_append with
  | none => p1
  | some t => { p1 with free_text_context := p1.free_text_context ++ "\n" ++ t }

/-- A sequence of extractions applied in order. -/
def applyDeltas (p : Profile) (ds : List ProfileDelta) : Profile :=
  ds.foldl applyDelta p

/-- One entry of the backend message history: role and content
(section 3). -/
structure ChatTurn where
  role : String
  content : String
deriving DecidableEq, Repr

/-- Modelled from the spec: policy knobs the spec says must be
configuration rather than hard-coded (sections 4.1-4.4 and 9). -/
structure Config where
  gatherCap : Nat
  topK : Nat
  maxOptionalGaps : Nat
  historyWindow : Nat
deriving DecidableEq, Repr

/-- A concrete configuration used by witnesses. -/
def defaultConfig : Config :=
  { gatherCap := 5, topK := 3, maxOptionalGaps := 2, historyWindow := 20 }

/-- Result of the Context Assessor (section 4.1 contract). -/
structure Assessment where
  sufficient : Bool
  missing : List String
deriving DecidableEq, Repr

/-- Modelled from the spec: the required tags of the deterministic rule
layer that are missing — nationality, visa_intent, and at least one of
current_location and destination_country (section 4.1). -/
def requiredMissing (p : Profile) : List String :=
  (if p.nationality = "" then ["nationality"] else []) ++
  (if p.visa_intent = "" then ["visa_intent"] else []) ++
  (if p.current_location = "" ∧ p.destination_country = "" then
    ["current_location_or_destination_country"] else [])

/-- Modelled from the spec: optional tags previously flagged by the
extraction history that are still unresolved in structured_data
(section 4.1). -/
def optionalGaps (p : Profile) : List String :=
  p.flagged_optional.filter (fun t => (lookupSD p.structured_data t).isNone)

/-- Modelled from the spec: the Context Assessor. Pure function of the
profile, the message history, the configuration and the number of
gathering turns so far; sufficient is true iff all required tags are
present and no more than the configured number of optional gaps remain
unresolved after the configured number of gathering turns (section 4.1).
The deterministic rule layer does not consult the message history. -/
def assess (p : Profile) (_hist : List ChatTurn) (cfg : Config) (turns : Nat) : Assessment :=
  let rm := requiredMissing p
  let og := optionalGaps p
  { sufficient := rm.isEmpty && decide (og.length ≤ cfg.maxOptionalGaps ∨ cfg.gatherCap ≤ turns)
    missing := rm ++ og }

/-! ## Retrieval-augmented answerer
Modelled from the spec (section 4.3): the Answerer is absent from the
repository snapshot. -/

/-- Error raised by the Completion Client (section 6). -/
inductive CompletionError where
  | unavailable
deriving DecidableEq, Repr

/-- Error raised by the Retrieval Client for transport-level failure
(section 6). -/
inductive RetrievalError where
  | unavailable
deriving DecidableEq, Repr

/-- Error raised when the extraction output fails validation
(section 4.2). -/
inductive ExtractError where
  | parseError
deriving DecidableEq, Repr

/-- Modelled from the spec: the small fixed fallback set of generic
authoritative sources substituted when the Retrieval Client fails
(section 4.3 step 3). -/
def fallbackSources : List Citation :=
  [ { title := "UK Visas and Immigration"
      url := "https://www.gov.uk/browse/visas-immigration"
      snippet := "Official guidance on applying for UK visas." }
  , { title := "Check if you need a UK visa"
      url := "https://www.gov.uk/check-uk-visa"
      snippet := "Find out whether you need a visa for the UK." }
  , { title := "Visa decision waiting times"
      url := "https://www.gov.uk/guidance/visa-decision-waiting-times"
      snippet := "Current processing times for visa applications." } ]

/-- Modelled from the spec: the search query derived from the question,
enriched with profile fields to disambiguate generic questions
(section 4.3 step 1). -/
def buildQuery (q : String) (p : Profile) : String :=
  q ++ " " ++ p.nationality ++ " " ++ p.destination_country ++ " " ++ p.visa_intent

/-- Modelled from the spec: the grounding block pairing each ordinal with
its snippet, passed to the Completion Client together with the question
(section 4.3 step 4). -/
def groundingText (srcs : List Citation) (q : String) : String :=
  (srcs.enum.foldl
    (fun acc is =>
      acc ++ "[Source " ++ toString (is.1 + 1) ++ "] " ++ is.2.snippet ++ "\n") "")
    ++ q

/-- Modelled from the spec: the fixed uncertainty statement substituted
when the model returns an empty completion, so an answer always carries
non-empty text (section 4.3 step 4c, scenario C). -/
def uncertaintyText : String :=
  "I could not find enough information in the available sources to answer that confidently."

/-- Answer text is the raw completion, or the uncertainty statement when
the completion is empty. -/
def nonEmptyText (raw : String) : String :=
  if raw = "" then uncertaintyText else raw

/-- Helper for buildCitations: walk the delivered sources with their
0-based position, keeping exactly those whose 1-based ordinal is
referenced by some marker of the text. -/
def citationsAux (text : String) : Nat → List Citation → List Citation
  | _, [] => []
  | i, s :: rest =>
    if (i + 1) ∈ markersOf text then s :: citationsAux text (i + 1) rest
    else citationsAux text (i + 1) rest

/-- Modelled from the spec: the citations list returned with an answer
(section 4.3 steps 5-6): markers are parsed from the raw text, only
in-range ordinals are retained, unused retrieved sources are dropped from
the returned list, and the in-text ordinals are preserved as issued. -/
def buildCitations (delivered : List Citation) (text : String) : List Citation :=
  citationsAux text 0 delivered

/-- Result of one answer call (section 4.3 contract). -/
structure AnswerResult where
  text : String
  citations : List Citation
deriving DecidableEq, Repr

/-- Modelled from the spec: the injected Completion, Retrieval and
extraction collaborators (sections 6 and 9): explicit dependency
injection so test doubles can be substituted. -/
structure Clients where
  extractFn : String → Profile → Except ExtractError ProfileDelta
  completeFn : String → Except CompletionError String
  retrieveFn : String → Except RetrievalError (List Citation)

/-- Modelled from the spec: the degraded answer path taken on Retrieval
Client failure or an empty result set — the fixed fallback sources are
substituted and returned in full (section 4.3 step 3, scenario C). -/
def fallbackAnswer (cl : Clients) (q : String) : Except CompletionError AnswerResult :=
  match cl.completeFn (groundingText fallbackSources q) with
  | Except.error e => Except.error e
  | Except.ok raw => Except.ok { text := nonEmptyText raw, citations := fallbackSources }

/-- Modelled from the spec: the Retrieval-Augmented Answerer
(section 4.3): derive a query, retrieve, take the top-K results, ground
the completion, and build the returned citations from the markers of the
raw completion text. Retrieval failure and an empty result set degrade to
the fallback set; a Completion Client failure propagates to the
orchestrator boundary. -/
def answerTurn (cl : Clients) (cfg : Config) (q : String) (p : Profile) :
    Except CompletionError AnswerResult :=
  match cl.retrieveFn (buildQuery q p) with
  | Except.error _ => fallbackAnswer cl q
  | Except.ok [] => fallbackAnswer cl q
  | Except.ok srcs =>
    let delivered := srcs.take cfg.topK
    match cl.completeFn (groundingText delivered q) with
    | Except.error e => Except.error e
    | Except.ok raw =>
      Except.ok { text := nonEmptyText raw, citations := buildCitations delivered raw }

/-! ## Conversation orchestrator
Modelled from the spec (section 4.4): the state machine is absent from
the repository snapshot. -/

/-- The four control-flow states (section 3). -/
inductive Step where
  | ASSESS_CONTEXT
  | GATHER_CONTEXT
  | INTELLIGENT_QNA
  | END
deriving DecidableEq, Repr

/-- Modelled from the spec: the per-conversation session state threaded
through each turn (section 3). -/
structure SessionState where
  current_step : Step
  message_history : List ChatTurn
  turns_in_gather : Nat
  last_question : Option String
deriving DecidableEq, Repr

/-- The session state a fresh conversation starts from. -/
def initialSessionState : SessionState :=
  { current_step := Step.ASSESS_CONTEXT, message_history := []
    turns_in_gather := 0, last_question := none }

/-- Modelled from the spec: the message history is bounded — the oldest
entries beyond the configured window are trimmed (section 3). -/
def trimHistory (cfg : Config) (h : List ChatTurn) : List ChatTurn :=
  h.drop (h.length - cfg.historyWindow)

/-- What one orchestrator call returns: response text, citations, the
merged profile to persist and the new session state (section 4.4). -/
structure TurnResult where
  response : String
  citations : List Citation
  profile : Profile
  state : SessionState
deriving Repr

/-- Proactive greeting emitted when context is already sufficient and no
question is pending. -/
def greetingText : String :=
  "Hello! I am Mandry, your visa assistant. Ask me anything about your visa process."

/-- Question asked about the first missing tag while gathering context. -/
def askAboutText (missing : List String) : String :=
  match missing.head? with
  | some t => "To help you better, could you tell me more about the following: " ++ t ++ "?"
  | none => "Could you tell me a bit more about your situation?"

/-- Re-ask emitted when the extraction output failed validation
(section 4.2): the orchestrator re-asks in plain language rather than
corrupting the profile. -/
def reAskText : String :=
  "Sorry, I did not quite catch that. Could you say it again in plain language?"

/-- User-facing apologetic message for a Completion Client failure inside
a state transition (section 4.4 failure semantics). -/
def apologyText : String :=
  "I am sorry, something went wrong while processing your message. Please try again."

/-- Proactive summary once the gathered context became sufficient and no
question is pending. -/
def summaryText : String :=
  "Thank you! I have enough context about your situation now. What would you like to know?"

/-- Response flagging reduced personalization when the gathering cap
forces progression (section 4.4, scenario E). -/
def reducedPersonalizationText : String :=
  "Let us proceed with the details I have so far; my answers may be less personalized. What is your question?"

/-- Modelled from the spec: one turn of the Conversation Orchestrator
(section 4.4), parametrized over the assessor so that the cap-forcing
behaviour can be stated for every possible assessor output. Client
failures are caught at this boundary: an extraction parse failure or a
Completion Client failure yields an apologetic response with the state
and profile unchanged, so the turn is effectively retried
(sections 4.4 and 7). -/
def processTurnWith (aFn : Profile → List ChatTurn → Config → Nat → Assessment)
    (cfg : Config) (cl : Clients) (msg : String) (p : Profile) (st : SessionState) :
    TurnResult :=
  match st.current_step with
  | Step.ASSESS_CONTEXT =>
    let a := aFn p st.message_history cfg st.turns_in_gather
    if a.sufficient then
      match st.last_question with
      | some q =>
        match answerTurn cl cfg q p with
        | Except.error _ =>
          { response := apologyText, citations := [], profile := p, state := st }
        | Except.ok r =>
          { response := r.text, citations := r.citations
            profile := { p with context_sufficient := true }
            state := { current_step := Step.INTELLIGENT_QNA
                       message_history := trimHistory cfg (st.message_history ++
                         [{ role := "user", content := msg }, { role := "assistant", content := r.text }])
                       turns_in_gather := st.turns_in_gather, last_question := none } }
      | none =>
        { response := greetingText, citations := []
          profile := { p with context_sufficient := true }
          state := { current_step := Step.INTELLIGENT_QNA
                     message_history := trimHistory cfg (st.message_history ++
                       [{ role := "user", content := msg }, { role := "assistant", content := greetingText }])
                     turns_in_gather := st.turns_in_gather, last_question := none } }
    else
      { response := askAboutText a.missing, citations := [], profile := p
        state := { current_step := Step.GATHER_CONTEXT
                   message_history := trimHistory cfg (st.message_history ++
                     [{ role := "user", content := msg }, { role := "assistant", content := askAboutText a.missing }])
                   turns_in_gather := st.turns_in_gather, last_question := st.last_question } }
  | Step.GATHER_CONTEXT =>
    match cl.extractFn msg p with
    | Except.error _ =>
      { response := reAskText, citations := [], profile := p, state := st }
    | Except.ok d =>
      let p2 := applyDelta p d
      let t2 := st.turns_in_gather + 1
      let a := aFn p2 st.message_history cfg t2
      if a.sufficient then
        match st.last_question with
        | some q =>
          match answerTurn cl cfg q p2 with
          | Except.error _ =>
            { response := apologyText, citations := [], profile := p, state := st }
          | Except.ok r =>
            { response := r.text, citations := r.citations
              profile := { p2 with context_sufficient := true }
              state := { current_step := Step.INTELLIGENT_QNA
                         message_history := trimHistory cfg (st.message_history ++
                           [{ role := "user", content := msg }, { role := "assistant", content := r.text }])
                         turns_in_gather := t2, last_question := none } }
        | none =>
          { response := summaryText, citations := []
            profile := { p2 with context_sufficient := true }
            state := { current_step := Step.INTELLIGENT_QNA
                       message_history := trimHistory cfg (st.message_history ++
                         [{ role := "user", content := msg }, { role := "assistant", content := summaryText }])
                       turns_in_gather := t2, last_question := none } }
      else if cfg.gatherCap ≤ t2 then
        { response := reducedPersonalizationText, citations := [], profile := p2
          state := { current_step := Step.INTELLIGENT_QNA
                     message_history := trimHistory cfg (st.message_history ++
                       [{ role := "user", content := msg }, { role := "assistant", content := reducedPersonalizationText }])
                     turns_in_gather := t2, last_question := st.last_question } }
      else
        { response := askAboutText a.missing, citations := [], profile := p2
          state := { current_step := Step.GATHER_CONTEXT
                     message_history := trimHistory cfg (st.message_history ++
                       [{ role := "user", content := msg }, { role := "assistant", content := askAboutText a.missing }])
                     turns_in_gather := t2, last_question := st.last_question } }
  | Step.INTELLIGENT_QNA =>
    match answerTurn cl cfg msg p with
    | Except.error _ =>
      { response := apologyText, citations := [], profile := p, state := st }
    | Except.ok r =>
      { response := r.text, citations := r.citations, profile := p
        state := { current_step := Step.INTELLIGENT_QNA
                   message_history := trimHistory cfg (st.message_history ++
                     [{ role := "user", content := msg }, { role := "assistant", content := r.text }])
                   turns_in_gather := st.turns_in_gather, last_question := none } }
  | Step.END =>
    { response := greetingText, citations := [], profile := p, state := initialSessionState }

/-- The orchestrator with the real assessor plugged in. -/
def processTurn (cfg : Config) (cl : Clients) (msg : String) (p : Profile)
    (st : SessionState) : TurnResult :=
  processTurnWith assess cfg cl msg p st

/-! ## Frontend: profile dropdown
The repository snapshot carries two versions of the ProfileDropdown
component; both define getCompletionPercentage. Variant A is the earlier
one (lines 179-191 of the concatenated file), variant B the later one
(lines 429-447). JavaScript truthiness of a string is being non-empty. -/

/-- The JavaScript String.prototype.trim operation: whitespace removed
from both ends, written directly on the character list. -/
def jsTrim (s : String) : String :=
  String.mk (((s.data.dropWhile Char.isWhitespace).reverse.dropWhile
    Char.isWhitespace).reverse)

/-- The UserProfile interface of profile-dropdown.tsx. -/
structure UserProfile where
  nationality : String
  current_location : String
  destination_country : String
  visa_intent : String
  structured_data : List (String × String)
  profile_context : String
  conversation_insights : String
  missing_context : List String
  context_sufficient : Bool
deriving DecidableEq, Repr

/-- getCompletionPercentage, earlier ProfileDropdown variant: 25 points
each for nationality and visa_intent, 15 each for current_location and
destination_country, 10 for conversation_insights and 10 for a non-empty
structured_data map, capped at 100. -/
def getCompletionPercentageA (p : Option UserProfile) : Nat :=
  match p with
  | none => 0
  | some p =>
    min ((if p.nationality = "" then 0 else 25)
      + (if p.visa_intent = "" then 0 else 25)
      + (if p.current_location = "" then 0 else 15)
      + (if p.destination_country = "" then 0 else 15)
      + (if p.conversation_insights = "" then 0 else 10)
      + (if p.structured_data = [] then 0 else 10)) 100

/-- getCompletionPercentage, later ProfileDropdown variant: the same four
core scores plus 20 points when any of conversation_insights (trimmed),
structured_data or profile_context (trimmed) is present, capped at 100. -/
def getCompletionPercentageB (p : Option UserProfile) : Nat :=
  match p with
  | none => 0
  | some p =>
    min ((if p.nationality = "" then 0 else 25)
      + (if p.visa_intent = "" then 0 else 25)
      + (if p.current_location = "" then 0 else 15)
      + (if p.destination_country = "" then 0 else 15)
      + (if jsTrim p.conversation_insights ≠ "" ∨ p.structured_data ≠ []
            ∨ jsTrim p.profile_context ≠ "" then 20 else 0)) 100

/-- Field-wise extension order on user profiles: q populates every field
that p populates, keeping the value of each field p already had.
Changing one field from empty to non-empty is an instance. -/
def profileLE (p q : UserProfile) : Prop :=
  (p.nationality = q.nationality ∨ p.nationality = "") ∧
  (p.current_location = q.current_location ∨ p.current_location = "") ∧
  (p.destination_country = q.destination_country ∨ p.destination_country = "") ∧
  (p.visa_intent = q.visa_intent ∨ p.visa_intent = "") ∧
  (p.structured_data = q.structured_data ∨ p.structured_data = []) ∧
  (p.profile_context = q.profile_context ∨ p.profile_context = "") ∧
  (p.conversation_insights = q.conversation_insights ∨ p.conversation_insights = "")

/-! ## Frontend: upload page
Embedding of handleFileUpload from the upload page (both versions
perform the same validation before any fetch). -/

/-- The slice of a browser File the validation consults. -/
structure JsFile where
  name : String
  type : String
  size : Nat
deriving DecidableEq, Repr

/-- What the upload handler does with an offered file: either set a
failure result message and return, or issue the network request. -/
inductive UploadAction where
  | rejected (message : String)
  | request (url : String) (fileName : String)
deriving DecidableEq, Repr

/-- The allowed MIME types of handleFileUpload. -/
def allowedTypes : List String :=
  ["application/pdf", "image/png", "image/jpeg", "image/jpg"]

/-- handleFileUpload validation: a disallowed MIME type or a size above
10 * 1024 * 1024 bytes sets a failure message and returns before the
fetch; otherwise the document is posted. -/
def handleFileUpload (file : JsFile) : UploadAction :=
  if ¬ (file.type ∈ allowedTypes) then
    UploadAction.rejected "Only PDF, PNG, and JPG files are allowed."
  else if 10 * 1024 * 1024 < file.size then
    UploadAction.rejected "File size must be less than 10MB."
  else
    UploadAction.request "http://localhost:8000/api/process-document/" file.name

/-! ## Frontend: chat page
Embedding of the message-list updates of the chat page component: the
typing-complete handler, startConversation and handleSendMessage. Each
is modelled as a pure function of the previous messages list, the
session state and the observed fetch outcome. -/

/-- The Message interface of the chat page. -/
structure ChatMsg where
  id : String
  role : String
  content : String
  citations : Option (List Citation)
deriving DecidableEq, Repr

/-- Outcome of the fetch to the chat endpoint, as observed by the
component: a parsed ok response, a non-ok HTTP response, or a thrown
network error. σ is the frontend SessionState payload, treated
opaquely. -/
inductive ChatOutcome (σ : Type) where
  | ok (response : String) (citations : List Citation) (session : σ)
      (current_step : String) (context_sufficient : Bool)
  | httpError
  | networkError

/-- Apology appended on a non-ok HTTP response. -/
def sendApologyHttp : String :=
  "I am sorry, I could not process your request. Please try again or check your authentication."

/-- Apology appended on a thrown network error. -/
def sendApologyNetwork : String :=
  "I am sorry, there was an error connecting to the server. Please check your internet connection and try again."

/-- The welcome message appended by the typing-complete handler. -/
def welcomeMsg (idA : String) : ChatMsg :=
  { id := idA, role := "assistant"
    content := "Hello! I am your AI assistant. I am here to help you navigate through any challenge. How can I assist you today?"
    citations := none }

/-- handleTypingComplete: appends the welcome message. -/
def handleTypingComplete (idA : String) (messages : List ChatMsg) : List ChatMsg :=
  messages ++ [welcomeMsg idA]

/-- startConversation: posts a start message and appends exactly one
assistant message in every branch; only the ok branch stores the
returned session state. -/
def startConversation {σ : Type} (idA : String) (messages : List ChatMsg)
    (session : Option σ) (outcome : ChatOutcome σ) : List ChatMsg × Option σ :=
  match outcome with
  | ChatOutcome.ok resp cits s _ _ =>
    (messages ++ [{ id := idA, role := "assistant", content := resp, citations := some cits }], some s)
  | ChatOutcome.httpError =>
    (messages ++ [{ id := idA, role := "assistant", content := sendApologyHttp, citations := none }], session)
  | ChatOutcome.networkError =>
    (messages ++ [{ id := idA, role := "assistant", content := sendApologyNetwork, citations := none }], session)

/-- handleSendMessage: when the trimmed draft is non-empty and no request
is in flight, append the user message, then append one assistant message
per outcome branch; only the ok branch calls setSessionState. -/
def handleSendMessage {σ : Type} (idU idA : String) (msg : String) (isLoading : Bool)
    (messages : List ChatMsg) (session : Option σ) (outcome : ChatOutcome σ) :
    List ChatMsg × Option σ :=
  if jsTrim msg = "" ∨ isLoading then (messages, session)
  else
    let ms1 := messages ++ [{ id := idU, role := "user", content := msg, citations := none }]
    match outcome with
    | ChatOutcome.ok resp cits s _ _ =>
      (ms1 ++ [{ id := idA, role := "assistant", content := resp, citations := some cits }], some s)
    | ChatOutcome.httpError =>
      (ms1 ++ [{ id := idA, role := "assistant", content := sendApologyHttp, citations := none }], session)
    | ChatOutcome.networkError =>
      (ms1 ++ [{ id := idA, role := "assistant", content := sendApologyNetwork, citations := none }], session)

/-! ## Concrete fixtures used by counterexamples and witnesses -/

/-- Three delivered sources for exercising citation building. -/
def deliveredC1 : List Citation :=
  [ { title := "A", url := "https://a.example", snippet := "sa" }
  , { title := "B", url := "https://b.example", snippet := "sb" }
  , { title := "C", url := "https://c.example", snippet := "sc" } ]

/-- A raw answer text referencing only the second and third sources. -/
def textC1 : String := "See [Source 2] and [Source 3]."

/-- A client bundle whose Retrieval Client is down and whose Completion
Client succeeds; extraction fails with a parse error. -/
def clC5 : Clients :=
  { extractFn := fun _ _ => Except.error ExtractError.parseError
    completeFn := fun _ =>
      Except.ok "Based on the official guidance, you need a Standard Visitor visa [Source 1]."
    retrieveFn := fun _ => Except.error RetrievalError.unavailable }

/-- A session already in the question-answering state. -/
def stC5 : SessionState :=
  { current_step := Step.INTELLIGENT_QNA, message_history := []
    turns_in_gather := 0, last_question := none }

/-- A user profile with the four core fields set and structured data as
its only form of additional context. -/
def pxC9 : UserProfile :=
  { nationality := "Ukraine", current_location := "Ukraine"
    destination_country := "United Kingdom", visa_intent := "study"
    structured_data := [("marital_status", "single")]
    profile_context := "", conversation_insights := ""
    missing_context := [], context_sufficient := false }

/-- One-entry citation list for the renderer counterexample. -/
def citsC7a : List Citation :=
  [{ title := "GOV.UK", url := "https://www.gov.uk/check-uk-visa", snippet := "s" }]

/-- The same list with a different url. -/
def citsC7b : List Citation :=
  [{ title := "GOV.UK", url := "https://www.gov.uk/browse/visas-immigration", snippet := "s" }]

/-- Clients for the C4 witness: extraction succeeds with an empty delta,
the other collaborators are unavailable. -/
def clC4 : Clients :=
  { extractFn := fun _ _ => Except.ok { structured_updates := [], free_text_append := none }
    completeFn := fun _ => Except.error CompletionError.unavailable
    retrieveFn := fun _ => Except.error RetrievalError.unavailable }

/-- A gathering-state session for the C4 witness. -/
def stC4 : SessionState :=
  { current_step := Step.GATHER_CONTEXT, message_history := []
    turns_in_gather := 0, last_question := none }

/-- A configuration whose gathering cap is one turn. -/
def cfgC4 : Config :=
  { gatherCap := 1, topK := 3, maxOptionalGaps := 2, historyWindow := 20 }

/-- An assessor stub that always reports insufficiency. -/
def neverSufficient : Profile → List ChatTurn → Config → Nat → Assessment :=
  fun _ _ _ _ => { sufficient := false, missing := ["nationality"] }

/-! ## Theorems -/

/-- Claim C10: a file whose MIME type is not one of application/pdf,
image/png, image/jpeg, image/jpg, or whose size exceeds
10 * 1024 * 1024 bytes, makes handleFileUpload set a failure result
message and return before issuing any network request; a network request
is only issued for an allowed type within the size bound. -/
theorem C10_theorem (f : JsFile) :
    (f.type ∉ allowedTypes →
      handleFileUpload f = UploadAction.rejected "Only PDF, PNG, and JPG files are allowed.")
  ∧ (f.type ∈ allowedTypes → 10 * 1024 * 1024 < f.size →
      handleFileUpload f = UploadAction.rejected "File size must be less than 10MB.")
  ∧ (∀ u n, handleFileUpload f = UploadAction.request u n →
      f.type ∈ allowedTypes ∧ f.size ≤ 10 * 1024 * 1024) := by
  refine ⟨?_, ?_, ?_⟩
  · intro h
    simp [handleFileUpload, h]
  · intro h hs
    simp [handleFileUpload, h, hs]
  · intro u n h
    by_cases hm : f.type ∈ allowedTypes
    · by_cases hsz : 10 * 1024 * 1024 < f.size
      · simp [handleFileUpload, hm, hsz] at h
      · exact ⟨hm, Nat.le_of_not_lt hsz⟩
    · simp [handleFileUpload, hm] at h

/-- Witness for C10 at a concrete disallowed file. -/
theorem C10_witness :
    handleFileUpload { name := "a.exe", type := "application/exe", size := 10 } =
      UploadAction.rejected "Only PDF, PNG, and JPG files are allowed." :=
  (C10_theorem _).1 (by decide)

/-- Claim C3: a profile missing nationality or visa_intent, or with
neither current_location nor destination_country, makes assess return
sufficient = false; and sufficient = true only when all required tags are
present. -/
theorem C3_theorem (p : Profile) (hist : List ChatTurn) (cfg : Config) (turns : Nat) :
    ((p.nationality = "" ∨ p.visa_intent = ""
        ∨ (p.current_location = "" ∧ p.destination_country = "")) →
      (assess p hist cfg turns).sufficient = false)
  ∧ ((assess p hist cfg turns).sufficient = true →
      p.nationality ≠ "" ∧ p.visa_intent ≠ ""
        ∧ (p.current_location ≠ "" ∨ p.destination_country ≠ "")) := by
  constructor
  · intro h
    rcases h with h | h | h
    · simp [assess, requiredMissing, h]
    · simp [assess, requiredMissing, h]
    · simp [assess, requiredMissing, h.1, h.2]
  · intro h
    by_cases hn : p.nationality = ""
    · have hf : (assess p hist cfg turns).sufficient = false := by
        simp [assess, requiredMissing, hn]
      rw [hf] at h
      exact absurd h (by simp)
    by_cases hv : p.visa_intent = ""
    · have hf : (assess p hist cfg turns).sufficient = false := by
        simp [assess, requiredMissing, hv]
      rw [hf] at h
      exact absurd h (by simp)
    by_cases hc : p.current_location = "" ∧ p.destination_country = ""
    · have hf : (assess p hist cfg turns).sufficient = false := by
        simp [assess, requiredMissing, hc.1, hc.2]
      rw [hf] at h
      exact absurd h (by simp)
    exact ⟨hn, hv, not_and_or.mp hc⟩

/-- Witness for C3 at the empty profile. -/
theorem C3_witness : (assess emptyProfile [] defaultConfig 0).sufficient = false :=
  (C3_theorem emptyProfile [] defaultConfig 0).1 (Or.inl rfl)

/-- Lookup after an association-list overwrite-or-append. -/
theorem lookupSD_insertSD (sd : List (String × String)) (k v k2 : String) :
    lookupSD (insertSD sd k v) k2 = if k = k2 then some v else lookupSD sd k2 := by
  induction sd with
  | nil => simp [insertSD, lookupSD]
  | cons kv rest ih =>
    by_cases h1 : kv.1 = k
    · by_cases h2 : k = k2
      · simp [insertSD, lookupSD, h1, h2]
      · have : ¬ (kv.1 = k2) := by rw [h1]; exact h2
        simp [insertSD, lookupSD, h1, h2, this]
    · by_cases h2 : kv.1 = k2
      · have hne : ¬ (k = k2) := by
          intro he
          exact h1 (by rw [he, h2])
        have hne2 : ¬ (k2 = k) := fun he => hne he.symm
        simp [insertSD, lookupSD, h1, h2, hne, hne2]
      · simp [insertSD, lookupSD, h1, h2, ih]

/-- The structured_data component after one structured update: either
untouched or overwritten-appended with a non-empty value. -/
theorem mergeField_sd (acc : Profile) (kv : String × String) :
    (mergeField acc kv).structured_data = acc.structured_data
    ∨ (kv.2 ≠ "" ∧
        (mergeField acc kv).structured_data = insertSD acc.structured_data kv.1 kv.2) := by
  simp only [mergeField]
  split
  · exact Or.inl rfl
  next he =>
  split
  · exact Or.inl rfl
  split
  · exact Or.inl rfl
  split
  · exact Or.inl rfl
  split
  · exact Or.inl rfl
  · exact Or.inr ⟨he, rfl⟩

/-- One structured update never removes a key and only changes its value
to a non-empty one. -/
theorem mergeField_lookup (acc : Profile) (kv : String × String) (k w : String)
    (h : lookupSD acc.structured_data k = some w) :
    ∃ v2, lookupSD (mergeField acc kv).structured_data k = some v2
      ∧ (v2 = w ∨ v2 ≠ "") := by
  rcases mergeField_sd acc kv with hsd | ⟨he, hsd⟩
  · exact ⟨w, by rw [hsd, h], Or.inl rfl⟩
  · rw [hsd, lookupSD_insertSD]
    by_cases hk : kv.1 = k
    · exact ⟨kv.2, by rw [if_pos hk], Or.inr he⟩
    · exact ⟨w, by rw [if_neg hk, h], Or.inl rfl⟩

/-- mergeField never touches the free-text notes. -/
theorem mergeField_free (acc : Profile) (kv : String × String) :
    (mergeField acc kv).free_text_context = acc.free_text_context := by
  simp only [mergeField]
  split <;> try rfl
  split <;> try rfl
  split <;> try rfl
  split <;> try rfl
  split <;> rfl

/-- Folding structured updates preserves keys, changing values only to
non-empty ones. -/
theorem foldMerge_lookup (us : List (String × String)) :
    ∀ (acc : Profile) (k w : String), lookupSD acc.structured_data k = some w →
    ∃ v2, lookupSD ((us.foldl mergeField acc).structured_data) k = some v2
      ∧ (v2 = w ∨ v2 ≠ "") := by
  induction us with
  | nil => exact fun acc k w h => ⟨w, h, Or.inl rfl⟩
  | cons kv rest ih =>
    intro acc k w h
    obtain ⟨w1, hw1, hp1⟩ := mergeField_lookup acc kv k w h
    obtain ⟨v2, hv2, hp2⟩ := ih (mergeField acc kv) k w1 hw1
    refine ⟨v2, hv2, ?_⟩
    rcases hp2 with rfl | hne
    · rcases hp1 with rfl | hne1
      · exact Or.inl rfl
      · exact Or.inr hne1
    · exact Or.inr hne

/-- Folding structured updates never touches the free-text notes. -/
theorem foldMerge_free (us : List (String × String)) :
    ∀ acc : Profile, ((us.foldl mergeField acc).free_text_context) = acc.free_text_context := by
  induction us with
  | nil => exact fun _ => rfl
  | cons kv rest ih =>
    intro acc
    rw [List.foldl_cons, ih (mergeField acc kv), mergeField_free]

/-- One extraction preserves keys, changing values only to non-empty
ones. -/
theorem applyDelta_lookup (p : Profile) (d : ProfileDelta) (k w : String)
    (h : lookupSD p.structured_data k = some w) :
    ∃ v2, lookupSD (applyDelta p d).structured_data k = some v2
      ∧ (v2 = w ∨ v2 ≠ "") := by
  obtain ⟨v2, hv2, hp⟩ := foldMerge_lookup d.structured_updates p k w h
  refine ⟨v2, ?_, hp⟩
  simp only [applyDelta]
  cases d.free_text_append with
  | none => exact hv2
  | some t => exact hv2

/-- One extraction only extends the free-text notes. -/
theorem applyDelta_free (p : Profile) (d : ProfileDelta) :
    ∃ t, (applyDelta p d).free_text_context = p.free_text_context ++ t := by
  simp only [applyDelta]
  cases d.free_text_append with
  | none =>
    exact ⟨"", by rw [foldMerge_free, String.append_empty]⟩
  | some t =>
    exact ⟨"\n" ++ t, by rw [foldMerge_free, ← String.append_assoc]⟩

/-- Any sequence of extractions preserves keys, changing values only to
non-empty ones. -/
theorem applyDeltas_lookup (ds : List ProfileDelta) :
    ∀ (p : Profile) (k w : String), lookupSD p.structured_data k = some w →
    ∃ v2, lookupSD (applyDeltas p ds).structured_data k = some v2
      ∧ (v2 = w ∨ v2 ≠ "") := by
  induction ds with
  | nil => exact fun p k w h => ⟨w, h, Or.inl rfl⟩
  | cons d rest ih =>
    intro p k w h
    obtain ⟨w1, hw1, hp1⟩ := applyDelta_lookup p d k w h
    obtain ⟨v2, hv2, hp2⟩ := ih (applyDelta p d) k w1 hw1
    refine ⟨v2, hv2, ?_⟩
    rcases hp2 with rfl | hne
    · rcases hp1 with rfl | hne1
      · exact Or.inl rfl
      · exact Or.inr hne1
    · exact Or.inr hne

/-- Any sequence of extractions only extends the free-text notes. -/
theorem applyDeltas_free (ds : List ProfileDelta) :
    ∀ p : Profile, ∃ t, (applyDeltas p ds).free_text_context = p.free_text_context ++ t := by
  induction ds with
  | nil => exact fun p => ⟨"", (String.append_empty _).symm⟩
  | cons d rest ih =>
    intro p
    obtain ⟨t1, h1⟩ := applyDelta_free p d
    obtain ⟨t2, h2⟩ := ih (applyDelta p d)
    refine ⟨t1 ++ t2, ?_⟩
    rw [applyDeltas, List.foldl_cons]
    rw [applyDeltas] at h2
    rw [h2, h1, String.append_assoc]

/-- Claim C2: across every sequence of extractions, a previously set
structured_data key is never removed, and its value is only ever replaced
by a non-empty one supplied by some extraction; the free-text notes are
only extended, never replaced; and extraction never empties a non-empty
structured_data map — clearing happens only through the separate explicit
reset operation. -/
theorem C2_theorem (p : Profile) (ds : List ProfileDelta) :
    (∀ k w, lookupSD p.structured_data k = some w →
      ∃ v2, lookupSD (applyDeltas p ds).structured_data k = some v2
        ∧ (v2 = w ∨ v2 ≠ ""))
  ∧ (∃ t, (applyDeltas p ds).free_text_context = p.free_text_context ++ t)
  ∧ (p.structured_data ≠ [] → (applyDeltas p ds).structured_data ≠ [])
  ∧ resetProfile p = emptyProfile := by
  refine ⟨fun k w h => applyDeltas_lookup ds p k w h, applyDeltas_free ds p, ?_, rfl⟩
  intro hne
  match hsd : p.structured_data with
  | [] => exact absurd hsd hne
  | kv :: rest =>
    have hl : lookupSD p.structured_data kv.1 = some kv.2 := by
      rw [hsd]; simp [lookupSD]
    obtain ⟨v2, hv2, -⟩ := applyDeltas_lookup ds p kv.1 kv.2 hl
    intro hempty
    rw [hempty] at hv2
    simp [lookupSD] at hv2

/-- Witness for C2: a concrete extraction sequence with an overwrite and
an ignored empty value keeps the original key present. -/
theorem C2_witness :
    ∃ v2, lookupSD (applyDeltas
        { emptyProfile with structured_data := [("marital_status", "single")] }
        [ { structured_updates := [("marital_status", "married"), ("age", "")], free_text_append := some "note" }
        , { structured_updates := [], free_text_append := none } ]).structured_data
      "marital_status" = some v2 ∧ (v2 = "single" ∨ v2 ≠ "") :=
  (C2_theorem _ _).1 "marital_status" "single" rfl

/-- Claim C4: a turn processed in GATHER_CONTEXT (extraction validated,
and the carried-over question answerable whenever the assessor reports
sufficiency) increments turns_in_gather by exactly one, and whenever the
incremented counter reaches the configured cap the turn transitions to
INTELLIGENT_QNA — for every assessor aFn, hence regardless of the
assessor output. -/
theorem C4_theorem (aFn : Profile → List ChatTurn → Config → Nat → Assessment)
    (cfg : Config) (cl : Clients) (msg : String) (p : Profile) (st : SessionState)
    (d : ProfileDelta)
    (h1 : st.current_step = Step.GATHER_CONTEXT)
    (h2 : cl.extractFn msg p = Except.ok d)
    (h3 : ∀ q, st.last_question = some q →
      (aFn (applyDelta p d) st.message_history cfg (st.turns_in_gather + 1)).sufficient = true →
      ∃ r, answerTurn cl cfg q (applyDelta p d) = Except.ok r) :
    (processTurnWith aFn cfg cl msg p st).state.turns_in_gather = st.turns_in_gather + 1
  ∧ (cfg.gatherCap ≤ st.turns_in_gather + 1 →
      (processTurnWith aFn cfg cl msg p st).state.current_step = Step.INTELLIGENT_QNA) := by
  by_cases hs : (aFn (applyDelta p d) st.message_history cfg (st.turns_in_gather + 1)).sufficient = true
  · cases hlq : st.last_question with
    | none =>
      simp [processTurnWith, h1, h2, hs, hlq]
    | some q =>
      obtain ⟨r, hr⟩ := h3 q hlq hs
      simp [processTurnWith, h1, h2, hs, hlq, hr]
  · by_cases hc : cfg.gatherCap ≤ st.turns_in_gather + 1
    · simp [processTurnWith, h1, h2, hs, hc]
    · simp [processTurnWith, h1, h2, hs, hc]

/-- Witness for C4: with a one-turn cap and an always-insufficient
assessor, a processed gather turn still reaches INTELLIGENT_QNA. -/
theorem C4_witness :
    (processTurnWith neverSufficient cfgC4 clC4 "hello" emptyProfile stC4).state.turns_in_gather = 1
  ∧ (processTurnWith neverSufficient cfgC4 clC4 "hello" emptyProfile stC4).state.current_step
      = Step.INTELLIGENT_QNA := by
  have h := C4_theorem neverSufficient cfgC4 clC4 "hello" emptyProfile stC4
    { structured_updates := [], free_text_append := none } rfl rfl
    (by intro q hq; exact absurd hq (by simp [stC4]))
  exact ⟨h.1, h.2 (by decide)⟩

/-- Claim C6: when the Retrieval Client fails or returns an empty result
set, the Answerer does not error (given the completion succeeds on the
fallback grounding): it returns an answer with non-empty text and the
non-empty fixed fallback citations. -/
theorem C6_theorem (cl : Clients) (cfg : Config) (q : String) (p : Profile) (raw : String)
    (hr : cl.retrieveFn (buildQuery q p) = Except.error RetrievalError.unavailable
        ∨ cl.retrieveFn (buildQuery q p) = Except.ok [])
    (hc : cl.completeFn (groundingText fallbackSources q) = Except.ok raw) :
    ∃ r, answerTurn cl cfg q p = Except.ok r ∧ r.text ≠ "" ∧ r.citations ≠ [] := by
  have hfb : fallbackAnswer cl q
      = Except.ok { text := nonEmptyText raw, citations := fallbackSources } := by
    simp [fallbackAnswer, hc]
  refine ⟨{ text := nonEmptyText raw, citations := fallbackSources }, ?_, ?_, by simp [fallbackSources]⟩
  · rcases hr with hr | hr
    · simp [answerTurn, hr, hfb]
    · simp [answerTurn, hr, hfb]
  · by_cases hraw : raw = ""
    · simp [nonEmptyText, hraw, uncertaintyText]
    · simp [nonEmptyText, hraw]

/-- Witness for C6 with a concrete unavailable Retrieval Client. -/
theorem C6_witness :
    ∃ r, answerTurn clC5 defaultConfig "Do I need a visa?" emptyProfile = Except.ok r
      ∧ r.text ≠ "" ∧ r.citations ≠ [] :=
  C6_theorem clC5 defaultConfig "Do I need a visa?" emptyProfile
    "Based on the official guidance, you need a Standard Visitor visa [Source 1]."
    (Or.inl rfl) rfl

/-- Counterexample to claim C5 as stated: in a turn whose Retrieval
Client call fails (and whose Completion Client succeeds), the orchestrator
does not produce an apologetic response and does not leave the session
state unchanged — it answers with the fallback sources and appends to the
history, as the degrade-gracefully path prescribes. -/
theorem C5_counterexample :
    clC5.retrieveFn (buildQuery "Do I need a visa?" emptyProfile)
      = Except.error RetrievalError.unavailable
  ∧ (processTurn defaultConfig clC5 "Do I need a visa?" emptyProfile stC5).response ≠ apologyText
  ∧ (processTurn defaultConfig clC5 "Do I need a visa?" emptyProfile stC5).state ≠ stC5 := by
  refine ⟨rfl, ?_, ?_⟩
  · decide
  · decide

/-- Claim C5, amended: an extraction parse failure or a Completion Client
failure in any state is caught and converted into an apologetic (re-ask)
response with the session state and profile unchanged — no exception
reaches the caller; a Retrieval Client failure alone is instead degraded
to the fallback sources and the turn completes normally; and in the chat
client, both error branches of handleSendMessage append an apology
message and never store a session state. -/
theorem C5_theorem (aFn : Profile → List ChatTurn → Config → Nat → Assessment)
    (cfg : Config) (cl : Clients) (msg : String) (p : Profile) (st : SessionState)
    (e : ExtractError) (ce : CompletionError) (raw : String) :
    (st.current_step = Step.GATHER_CONTEXT → cl.extractFn msg p = Except.error e →
      processTurnWith aFn cfg cl msg p st
        = { response := reAskText, citations := [], profile := p, state := st })
  ∧ (st.current_step = Step.INTELLIGENT_QNA → answerTurn cl cfg msg p = Except.error ce →
      processTurnWith aFn cfg cl msg p st
        = { response := apologyText, citations := [], profile := p, state := st })
  ∧ (st.current_step = Step.GATHER_CONTEXT → ∀ d q, cl.extractFn msg p = Except.ok d →
      st.last_question = some q →
      (aFn (applyDelta p d) st.message_history cfg (st.turns_in_gather + 1)).sufficient = true →
      answerTurn cl cfg q (applyDelta p d) = Except.error ce →
      processTurnWith aFn cfg cl msg p st
        = { response := apologyText, citations := [], profile := p, state := st })
  ∧ (st.current_step = Step.ASSESS_CONTEXT → ∀ q, st.last_question = some q →
      (aFn p st.message_history cfg st.turns_in_gather).sufficient = true →
      answerTurn cl cfg q p = Except.error ce →
      processTurnWith aFn cfg cl msg p st
        = { response := apologyText, citations := [], profile := p, state := st })
  ∧ (st.current_step = Step.INTELLIGENT_QNA →
      cl.retrieveFn (buildQuery msg p) = Except.error RetrievalError.unavailable →
      cl.completeFn (groundingText fallbackSources msg) = Except.ok raw →
      (processTurnWith aFn cfg cl msg p st).response = nonEmptyText raw
        ∧ (processTurnWith aFn cfg cl msg p st).citations = fallbackSources
        ∧ (processTurnWith aFn cfg cl msg p st).state.current_step = Step.INTELLIGENT_QNA)
  ∧ (∀ (σ : Type) (idU idA msg2 : String) (ms : List ChatMsg) (session : Option σ),
      jsTrim msg2 ≠ "" →
      handleSendMessage idU idA msg2 false ms session ChatOutcome.httpError
        = (ms ++ [{ id := idU, role := "user", content := msg2, citations := none }]
            ++ [{ id := idA, role := "assistant", content := sendApologyHttp, citations := none }], session)
      ∧ handleSendMessage idU idA msg2 false ms session ChatOutcome.networkError
        = (ms ++ [{ id := idU, role := "user", content := msg2, citations := none }]
            ++ [{ id := idA, role := "assistant", content := sendApologyNetwork, citations := none }], session)) := by
  refine ⟨?_, ?_, ?_, ?_, ?_, ?_⟩
  · intro h1 h2
    simp [processTurnWith, h1, h2]
  · intro h1 h2
    simp [processTurnWith, h1, h2]
  · intro h1 d q h2 hlq hs ha
    simp [processTurnWith, h1, h2, hlq, hs, ha]
  · intro h1 q hlq hs ha
    simp [processTurnWith, h1, hlq, hs, ha]
  · intro h1 hr hc
    have hfb : fallbackAnswer cl msg
        = Except.ok { text := nonEmptyText raw, citations := fallbackSources } := by
      simp [fallbackAnswer, hc]
    simp [processTurnWith, h1, answerTurn, hr, hfb]
  · intro σ idU idA msg2 ms session ht
    constructor
    · simp [handleSendMessage, ht]
    · simp [handleSendMessage, ht]

/-- Witness for C5 at a concrete failing extraction in the gathering
state. -/
theorem C5_witness :
    processTurnWith assess defaultConfig clC5 "hello" emptyProfile stC4
      = { response := reAskText, citations := [], profile := emptyProfile, state := stC4 } :=
  (C5_theorem assess defaultConfig clC5 "hello" emptyProfile stC4
    ExtractError.parseError CompletionError.unavailable "").1 rfl rfl

/-- Every delivered source whose successor ordinal is referenced ends up
in the built citations list. -/
theorem citationsAux_mem (text : String) :
    ∀ (l : List Citation) (i n : Nat) (s : Citation), l.get? n = some s →
      (i + n + 1) ∈ markersOf text → s ∈ citationsAux text i l := by
  intro l
  induction l with
  | nil =>
    intro i n s h _
    simp at h
  | cons a rest ih =>
    intro i n s h hm
    cases n with
    | zero =>
      simp only [List.get?_cons_zero, Option.some.injEq] at h
      subst h
      have hm1 : (i + 1) ∈ markersOf text := by simpa using hm
      simp [citationsAux, hm1]
    | succ m =>
      simp only [List.get?_cons_succ] at h
      have hm1 : ((i + 1) + m + 1) ∈ markersOf text := by
        have : (i + 1) + m + 1 = i + (m + 1) + 1 := by omega
        rw [this]
        exact hm
      have hmem := ih (i + 1) m s h hm1
      by_cases hc : (i + 1) ∈ markersOf text
      · simp [citationsAux, hc]
        exact Or.inr hmem
      · simpa [citationsAux, hc] using hmem

/-- Every member of the built citations list is a delivered source whose
successor ordinal is referenced. -/
theorem citationsAux_sub (text : String) :
    ∀ (l : List Citation) (i : Nat) (s : Citation), s ∈ citationsAux text i l →
      ∃ j, l.get? j = some s ∧ (i + j + 1) ∈ markersOf text := by
  intro l
  induction l with
  | nil =>
    intro i s h
    simp [citationsAux] at h
  | cons a rest ih =>
    intro i s h
    by_cases hc : (i + 1) ∈ markersOf text
    · simp only [citationsAux, hc, if_true] at h
      rcases List.mem_cons.mp h with rfl | hmem
      · exact ⟨0, by simp, by simpa using hc⟩
      · obtain ⟨j, hj, hm⟩ := ih (i + 1) s hmem
        refine ⟨j + 1, by simpa using hj, ?_⟩
        have : i + (j + 1) + 1 = (i + 1) + j + 1 := by omega
        rw [this]
        exact hm
    · simp only [citationsAux, hc, if_false] at h
      obtain ⟨j, hj, hm⟩ := ih (i + 1) s h
      refine ⟨j + 1, by simpa using hj, ?_⟩
      have : i + (j + 1) + 1 = (i + 1) + j + 1 := by omega
      rw [this]
      exact hm

/-- When no successor ordinal is referenced the built list is empty. -/
theorem citationsAux_nil_of_none (text : String) :
    ∀ (l : List Citation) (i : Nat),
      (∀ j, j < l.length → (i + j + 1) ∉ markersOf text) →
      citationsAux text i l = [] := by
  intro l
  induction l with
  | nil => intro i _; rfl
  | cons a rest ih =>
    intro i h
    have h0 : (i + 1) ∉ markersOf text := by
      have := h 0 (by simp)
      simpa using this
    simp only [citationsAux, h0, if_false]
    refine ih (i + 1) ?_
    intro j hj
    have := h (j + 1) (by simpa using Nat.succ_lt_succ hj)
    have heq : i + (j + 1) + 1 = (i + 1) + j + 1 := by omega
    rw [heq] at this
    exact this

/-- When the referenced ordinals are exactly those up to m, the built
list is the first m delivered sources, positionally aligned. -/
theorem citationsAux_take (text : String) (m : Nat) :
    ∀ (l : List Citation) (i : Nat),
      (∀ j, j < l.length → ((i + j + 1) ∈ markersOf text ↔ i + j + 1 ≤ m)) →
      citationsAux text i l = l.take (m - i) := by
  intro l
  induction l with
  | nil => intro i _; simp [citationsAux]
  | cons a rest ih =>
    intro i h
    have h0 := h 0 (by simp)
    simp only [Nat.add_zero] at h0
    by_cases hc : i + 1 ≤ m
    · have hmem : (i + 1) ∈ markersOf text := h0.mpr hc
      have hrest : ∀ j, j < rest.length → (((i + 1) + j + 1) ∈ markersOf text ↔ (i + 1) + j + 1 ≤ m) := by
        intro j hj
        have := h (j + 1) (by simpa using Nat.succ_lt_succ hj)
        have heq : i + (j + 1) + 1 = (i + 1) + j + 1 := by omega
        rw [heq] at this
        exact this
      have hmi : m - i = (m - (i + 1)) + 1 := by omega
      simp only [citationsAux, hmem, if_true]
      rw [ih (i + 1) hrest, hmi, List.take_succ_cons]
    · have hni : (i + 1) ∉ markersOf text := fun hmem => hc (h0.mp hmem)
      have hmi : m - i = 0 := by omega
      simp only [citationsAux, hni, if_false, hmi, List.take_zero]
      refine citationsAux_nil_of_none text rest (i + 1) ?_
      intro j hj hmem
      have := h (j + 1) (by simpa using Nat.succ_lt_succ hj)
      have heq : i + (j + 1) + 1 = (i + 1) + j + 1 := by omega
      rw [heq] at this
      have := this.mp hmem
      omega

/-- Counterexample to claim C1 as stated: for the delivered sources
deliveredC1 and answer text textC1 referencing only ordinals 2 and 3, the
returned citations list keeps only the two referenced sources with the
in-text ordinals preserved as issued, so the marker with N = 3 has no
entry at ordinal 3, and the entry at ordinal 2 is not the source that was
numbered 2 — the positional guarantee consumed by the renderer fails. -/
theorem C1_counterexample :
    markersOf textC1 = [2, 3]
  ∧ (buildCitations deliveredC1 textC1).length = 2
  ∧ 3 ∈ markersOf textC1 ∧ ¬ 3 ≤ (buildCitations deliveredC1 textC1).length
  ∧ (buildCitations deliveredC1 textC1).get? (2 - 1) ≠ deliveredC1.get? (2 - 1) := by
  refine ⟨by decide, by decide, by decide, by decide, by decide⟩

/-- Claim C1, amended: every in-range marker ordinal N of the returned
text has its source present in the returned citations (and only
referenced sources are returned); out-of-range markers contribute no
entry; the positional alignment of entry N at ordinal N holds exactly
when the referenced in-range ordinals are downward closed (1..m), in
which case citations is the first m delivered sources; on the consumer
side, transformCitations resolves a marker positionally via
citations[N-1].url and falls back to the cite-N anchor when the ordinal
exceeds the citations list, rather than dropping the marker. -/
theorem C1_theorem (delivered : List Citation) (text : String) :
    (∀ n s, n ∈ markersOf text → 1 ≤ n → delivered.get? (n - 1) = some s →
      s ∈ buildCitations delivered text)
  ∧ (∀ s, s ∈ buildCitations delivered text →
      ∃ n, n ∈ markersOf text ∧ 1 ≤ n ∧ delivered.get? (n - 1) = some s)
  ∧ (∀ m, (∀ k, 1 ≤ k → k ≤ delivered.length → ((k ∈ markersOf text) ↔ k ≤ m)) →
      buildCitations delivered text = delivered.take m)
  ∧ (∀ cits ds c, 1 ≤ natOfDigits ds → cits.get? (natOfDigits ds - 1) = some c →
      c.url ≠ "" → resolveTarget cits ds = c.url)
  ∧ (∀ (cits : List Citation) ds, cits.length < natOfDigits ds →
      resolveTarget cits ds = "#cite-" ++ String.mk ds) := by
  refine ⟨?_, ?_, ?_, ?_, ?_⟩
  · intro n s hm h1 hg
    have heq : 0 + (n - 1) + 1 = n := by omega
    exact citationsAux_mem text delivered 0 (n - 1) s hg (by rw [heq]; exact hm)
  · intro s hs
    obtain ⟨j, hj, hm⟩ := citationsAux_sub text delivered 0 s hs
    refine ⟨j + 1, by simpa using hm, by omega, by simpa using hj⟩
  · intro m h
    have := citationsAux_take text m delivered 0 ?_
    · simpa using this
    · intro j hj
      have := h (j + 1) (by omega) (by omega)
      simpa using this
  · intro cits ds c h1 h2 h3
    have hn0 : ¬ (natOfDigits ds = 0) := by omega
    rw [List.get?_eq_getElem?] at h2
    simp [resolveTarget, hn0, h2, h3]
  · intro cits ds hlen
    have hn0 : ¬ (natOfDigits ds = 0) := by omega
    have hnone : cits.get? (natOfDigits ds - 1) = none :=
      List.get?_eq_none.mpr (by omega)
    rw [List.get?_eq_getElem?] at hnone
    simp [resolveTarget, hn0, hnone]

/-- Witness for C1: the source numbered 2 is a member of the citations
built for textC1. -/
theorem C1_witness :
    ({ title := "B", url := "https://b.example", snippet := "sb" } : Citation)
      ∈ buildCitations deliveredC1 textC1 :=
  (C1_theorem deliveredC1 textC1).1 2 _ (by decide) (by decide) (by decide)

/-- The scanner emits nothing on an empty input regardless of fuel. -/
theorem transformAux_nil (cits : List Citation) (f : Nat) :
    transformAux cits f [] = [] := by
  cases f <;> rfl

/-- A successful marker match consumes at least one input character
beyond the returned remainder. -/
theorem matchMarker_length {cs ds rest : List Char} (h : matchMarker cs = some (ds, rest)) :
    rest.length < cs.length := by
  unfold matchMarker at h
  split at h
  next cs2 =>
    have hsplit : (cs2.takeWhile Char.isDigit).length + (cs2.dropWhile Char.isDigit).length
        = cs2.length := by
      rw [← List.length_append, List.takeWhile_append_dropWhile]
    split at h
    · exact absurd h (by simp)
    · rename_i u v restP heqDrop guard
      injection h with h0
      injection h0 with h1 h2
      subst h2
      rw [heqDrop] at hsplit
      simp only [List.length_cons] at hsplit ⊢
      omega
    · exact absurd h (by simp)
  · exact absurd h (by simp)

/-- Fuel irrelevance for the rewriting scanner: any fuel at least the
input length computes the same output, so instantiating the fuel with the
input length loses nothing. -/
theorem transformAux_fuel (cits : List Citation) :
    ∀ (n f : Nat) (cs : List Char), cs.length ≤ f → cs.length ≤ n →
      transformAux cits f cs = transformAux cits cs.length cs := by
  intro n
  induction n with
  | zero =>
    intro f cs hf hn
    have : cs = [] := List.eq_nil_of_length_eq_zero (Nat.le_zero.mp hn)
    subst this
    rw [transformAux_nil, transformAux_nil]
  | succ n ih =>
    intro f cs hf hn
    cases cs with
    | nil => rw [transformAux_nil, transformAux_nil]
    | cons c cs1 =>
      simp only [List.length_cons] at hf hn
      cases f with
      | zero => omega
      | succ f1 =>
        have hf1 : cs1.length ≤ f1 := by omega
        have hn1 : cs1.length ≤ n := by omega
        by_cases hc : c = '['
        · subst hc
          cases hm : matchMarker cs1 with
          | none =>
            simp only [transformAux, hm]
            rw [ih f1 cs1 hf1 hn1]
          | some dr =>
            have hlt : dr.2.length < cs1.length := matchMarker_length (by rw [hm])
            simp only [transformAux, hm]
            rw [ih f1 dr.2 (by omega) (by omega), ih cs1.length dr.2 (by omega) (by omega)]
        · simp only [transformAux, hc, List.length_cons]
          rw [ih f1 cs1 hf1 hn1]

/-- Fuel irrelevance for the marker-collecting scanner. -/
theorem markersAux_fuel :
    ∀ (n f : Nat) (cs : List Char), cs.length ≤ f → cs.length ≤ n →
      markersAux f cs = markersAux cs.length cs := by
  intro n
  induction n with
  | zero =>
    intro f cs hf hn
    have : cs = [] := List.eq_nil_of_length_eq_zero (Nat.le_zero.mp hn)
    subst this
    cases f <;> rfl
  | succ n ih =>
    intro f cs hf hn
    cases cs with
    | nil => cases f <;> rfl
    | cons c cs1 =>
      simp only [List.length_cons] at hf hn
      cases f with
      | zero => omega
      | succ f1 =>
        have hf1 : cs1.length ≤ f1 := by omega
        have hn1 : cs1.length ≤ n := by omega
        by_cases hc : c = '['
        · subst hc
          cases hm : matchMarker cs1 with
          | none =>
            simp only [markersAux, hm]
            rw [ih f1 cs1 hf1 hn1]
          | some dr =>
            have hlt : dr.2.length < cs1.length := matchMarker_length (by rw [hm])
            simp only [markersAux, hm]
            rw [ih f1 dr.2 (by omega) (by omega), ih cs1.length dr.2 (by omega) (by omega)]
        · simp only [markersAux, hc, List.length_cons]
          rw [ih f1 cs1 hf1 hn1]

/-- Taking and dropping digits around an all-digit block followed by a
closing bracket. -/
theorem takeWhile_digits_append (ds rest : List Char) (h : ∀ c ∈ ds, c.isDigit = true) :
    (ds ++ ']' :: rest).takeWhile Char.isDigit = ds
  ∧ (ds ++ ']' :: rest).dropWhile Char.isDigit = ']' :: rest := by
  induction ds with
  | nil =>
    constructor
    · simp [List.takeWhile_cons]
    · simp [List.dropWhile_cons]
  | cons c cs ih =>
    have hc : c.isDigit = true := h c (by simp)
    have ihh := ih (fun c2 hc2 => h c2 (by simp [hc2]))
    constructor
    · simp [List.takeWhile_cons, hc, ihh.1]
    · simp [List.dropWhile_cons, hc, ihh.2]

/-- matchMarker recognizes a well-formed marker remainder and returns its
digits and the input after the closing bracket. -/
theorem matchMarker_build (ds rest : List Char) (hne : ds ≠ [])
    (h : ∀ c ∈ ds, c.isDigit = true) :
    matchMarker ('S' :: 'o' :: 'u' :: 'r' :: 'c' :: 'e' :: ' ' :: (ds ++ ']' :: rest))
      = some (ds, rest) := by
  obtain ⟨tw, dw⟩ := takeWhile_digits_append ds rest h
  cases ds with
  | nil => exact absurd rfl hne
  | cons d ds2 =>
    simp only [matchMarker, tw, dw]

set_option maxRecDepth 8192 in
/-- Counterexample to claim C7 as stated: the frontend renderer itself
resolves the marker ordinal 1 to citations[0].url — the rewritten output
embeds the url of the source entry and changes when only that url
changes, so the frontend performs semantic marker-to-source mapping, not
mere presentation. -/
theorem C7_counterexample :
    transformCitations citsC7a "[Source 1]"
      = "<sup id=\"ref-1\" class=\"citation-ref\"><a href=\"https://www.gov.uk/check-uk-visa\" target=\"_blank\" rel=\"noopener noreferrer\" class=\"text-blue-600 hover:text-blue-800\">[1]</a></sup>"
  ∧ transformCitations citsC7a "[Source 1]" ≠ transformCitations citsC7b "[Source 1]" := by
  constructor
  · decide
  · decide

/-- Claim C7, amended: marker-to-source resolution happens in the
frontend at render time — for every citations list and digit string, the
renderer rewrites the bracketed Source marker into the superscript whose
link target is resolved positionally from the citations list (url of
entry N-1, anchor fallback otherwise); the mapping is not confined to the
core. -/
theorem C7_theorem (cits : List Citation) (ds : List Char) (hne : ds ≠ [])
    (h : ∀ c ∈ ds, c.isDigit = true) :
    transformCitations cits
        (String.mk ('[' :: 'S' :: 'o' :: 'u' :: 'r' :: 'c' :: 'e' :: ' ' :: (ds ++ [']'])))
      = renderSup cits ds := by
  have hm := matchMarker_build ds [] hne h
  simp only [transformCitations]
  show String.mk (transformAux cits
      (('[' :: 'S' :: 'o' :: 'u' :: 'r' :: 'c' :: 'e' :: ' ' :: (ds ++ [']'])).length)
      ('[' :: 'S' :: 'o' :: 'u' :: 'r' :: 'c' :: 'e' :: ' ' :: (ds ++ [']'])))
    = renderSup cits ds
  rw [List.length_cons]
  simp only [transformAux, hm]
  simp

/-- Witness for C7 at the one-digit marker for ordinal 2. -/
theorem C7_witness :
    transformCitations citsC7a
        (String.mk ('[' :: 'S' :: 'o' :: 'u' :: 'r' :: 'c' :: 'e' :: ' ' :: (['2'] ++ [']'])))
      = renderSup citsC7a ['2'] :=
  C7_theorem citsC7a ['2'] (by decide) (by decide)

/-- Claim C8: within a session the chat page message list is append-only:
the typing-complete handler appends exactly the welcome message; every
branch of startConversation appends exactly one assistant message; when a
message is actually sent, handleSendMessage appends the user message and
then exactly one assistant message (so the previous list is a prefix of
the new one at each of the two updates); and when the guard fails no
update happens at all. No existing message is removed or changed. -/
theorem C8_theorem {σ : Type} (idU idA msg : String) (isLoading : Bool)
    (ms : List ChatMsg) (session : Option σ) (outcome : ChatOutcome σ) :
    (handleTypingComplete idA ms = ms ++ [welcomeMsg idA])
  ∧ (∃ m, (startConversation idA ms session outcome).1 = ms ++ [m])
  ∧ (jsTrim msg ≠ "" → isLoading = false →
      ∃ ma, (handleSendMessage idU idA msg isLoading ms session outcome).1
        = (ms ++ [{ id := idU, role := "user", content := msg, citations := none }]) ++ [ma])
  ∧ ((jsTrim msg = "" ∨ isLoading = true) →
      handleSendMessage idU idA msg isLoading ms session outcome = (ms, session)) := by
  refine ⟨rfl, ?_, ?_, ?_⟩
  · cases outcome with
    | ok resp cits s cs suff => exact ⟨_, rfl⟩
    | httpError => exact ⟨_, rfl⟩
    | networkError => exact ⟨_, rfl⟩
  · intro ht hl
    subst hl
    cases outcome with
    | ok resp cits s cs suff =>
      exact ⟨{ id := idA, role := "assistant", content := resp, citations := some cits },
        by simp [handleSendMessage, ht]⟩
    | httpError =>
      exact ⟨{ id := idA, role := "assistant", content := sendApologyHttp, citations := none },
        by simp [handleSendMessage, ht]⟩
    | networkError =>
      exact ⟨{ id := idA, role := "assistant", content := sendApologyNetwork, citations := none },
        by simp [handleSendMessage, ht]⟩
  · intro hg
    rcases hg with hg | hg
    · simp [handleSendMessage, hg]
    · subst hg
      simp [handleSendMessage]

/-- Witness for C8: sending a concrete message over a failing connection
appends the user message and one assistant message. -/
theorem C8_witness :
    ∃ ma, (handleSendMessage (σ := Unit) "1" "2" "hi" false [] none ChatOutcome.httpError).1
      = (([] : List ChatMsg) ++ [{ id := "1", role := "user", content := "hi", citations := none }]) ++ [ma] :=
  (C8_theorem (σ := Unit) "1" "2" "hi" false [] none ChatOutcome.httpError).2.2.1
    (by decide) rfl

/-- An if-score with zero in the positive branch is monotone along a
reversed implication of the conditions. -/
theorem ite_zero_le {P Q : Prop} [Decidable P] [Decidable Q] (k : Nat) (h : Q → P) :
    (if P then 0 else k) ≤ (if Q then 0 else k) := by
  by_cases hq : Q
  · rw [if_pos (h hq), if_pos hq]
  · rw [if_neg hq]
    by_cases hp : P
    · rw [if_pos hp]
      exact Nat.zero_le _
    · rw [if_neg hp]

/-- An if-score with zero in the negative branch is monotone along an
implication of the conditions. -/
theorem ite_pos_le {P Q : Prop} [Decidable P] [Decidable Q] (k : Nat) (h : P → Q) :
    (if P then k else 0) ≤ (if Q then k else 0) := by
  by_cases hp : P
  · rw [if_pos hp, if_pos (h hp)]
  · rw [if_neg hp]
    exact Nat.zero_le _

/-- Counterexample to claim C9 as stated: under the earlier
getCompletionPercentage variant, a profile with nationality, visa_intent,
current_location, destination_country and one form of additional context
(structured_data) scores 90, not 100. -/
theorem C9_counterexample :
    pxC9.nationality ≠ "" ∧ pxC9.visa_intent ≠ "" ∧ pxC9.current_location ≠ ""
  ∧ pxC9.destination_country ≠ "" ∧ pxC9.structured_data ≠ []
  ∧ getCompletionPercentageA (some pxC9) = 90
  ∧ getCompletionPercentageA (some pxC9) ≠ 100 := by
  refine ⟨by decide, by decide, by decide, by decide, by decide, by decide, by decide⟩

/-- Claim C9, amended: both getCompletionPercentage variants return 0 on
a null profile and stay within 0..100, and both are monotone
non-decreasing under populating profile fields; the later variant returns
100 as soon as the four core fields and any one form of additional
context are present, while the earlier variant returns 100 for the four
core fields only when both conversation_insights and structured_data are
present (one form alone yields 90). -/
theorem C9_theorem (p q : UserProfile) :
    getCompletionPercentageA none = 0
  ∧ getCompletionPercentageB none = 0
  ∧ getCompletionPercentageA (some p) ≤ 100
  ∧ getCompletionPercentageB (some p) ≤ 100
  ∧ (profileLE p q →
      getCompletionPercentageA (some p) ≤ getCompletionPercentageA (some q)
      ∧ getCompletionPercentageB (some p) ≤ getCompletionPercentageB (some q))
  ∧ (p.nationality ≠ "" → p.visa_intent ≠ "" → p.current_location ≠ "" →
      p.destination_country ≠ "" →
      (jsTrim p.conversation_insights ≠ "" ∨ p.structured_data ≠ []
        ∨ jsTrim p.profile_context ≠ "") →
      getCompletionPercentageB (some p) = 100)
  ∧ (p.nationality ≠ "" → p.visa_intent ≠ "" → p.current_location ≠ "" →
      p.destination_country ≠ "" → p.conversation_insights ≠ "" →
      p.structured_data ≠ [] →
      getCompletionPercentageA (some p) = 100) := by
  refine ⟨rfl, rfl, Nat.min_le_right _ _, Nat.min_le_right _ _, ?_, ?_, ?_⟩
  · intro hle
    obtain ⟨hn, hcl, hdc, hvi, hsd, hpc, hci⟩ := hle
    have imn : q.nationality = "" → p.nationality = "" := by
      rcases hn with he | he
      · intro hq; rw [he]; exact hq
      · intro _; exact he
    have imcl : q.current_location = "" → p.current_location = "" := by
      rcases hcl with he | he
      · intro hq; rw [he]; exact hq
      · intro _; exact he
    have imdc : q.destination_country = "" → p.destination_country = "" := by
      rcases hdc with he | he
      · intro hq; rw [he]; exact hq
      · intro _; exact he
    have imvi : q.visa_intent = "" → p.visa_intent = "" := by
      rcases hvi with he | he
      · intro hq; rw [he]; exact hq
      · intro _; exact he
    have imci : q.conversation_insights = "" → p.conversation_insights = "" := by
      rcases hci with he | he
      · intro hq; rw [he]; exact hq
      · intro _; exact he
    have imsd : q.structured_data = [] → p.structured_data = [] := by
      rcases hsd with he | he
      · intro hq; rw [he]; exact hq
      · intro _; exact he
    have imadd : (jsTrim p.conversation_insights ≠ "" ∨ p.structured_data ≠ []
          ∨ jsTrim p.profile_context ≠ "") →
        (jsTrim q.conversation_insights ≠ "" ∨ q.structured_data ≠ []
          ∨ jsTrim q.profile_context ≠ "") := by
      intro hadd
      rcases hadd with ha | ha | ha
      · rcases hci with he | he
        · exact Or.inl (by rw [← he]; exact ha)
        · exact absurd (by rw [he]; decide) ha
      · rcases hsd with he | he
        · exact Or.inr (Or.inl (by rw [← he]; exact ha))
        · exact absurd he ha
      · rcases hpc with he | he
        · exact Or.inr (Or.inr (by rw [← he]; exact ha))
        · exact absurd (by rw [he]; decide) ha
    constructor
    · refine min_le_min ?_ le_rfl
      exact add_le_add (add_le_add (add_le_add (add_le_add (add_le_add
        (ite_zero_le 25 imn) (ite_zero_le 25 imvi)) (ite_zero_le 15 imcl))
        (ite_zero_le 15 imdc)) (ite_zero_le 10 imci)) (ite_zero_le 10 imsd)
    · refine min_le_min ?_ le_rfl
      exact add_le_add (add_le_add (add_le_add (add_le_add
        (ite_zero_le 25 imn) (ite_zero_le 25 imvi)) (ite_zero_le 15 imcl))
        (ite_zero_le 15 imdc)) (ite_pos_le 20 imadd)
  · intro h1 h2 h3 h4 hadd
    simp [getCompletionPercentageB, h1, h2, h3, h4, hadd]
  · intro h1 h2 h3 h4 h5 h6
    simp [getCompletionPercentageA, h1, h2, h3, h4, h5, h6]

/-- Witness for C9: the later variant reports 100 percent for the
concrete profile with structured data as its only additional context. -/
theorem C9_witness : getCompletionPercentageB (some pxC9) = 100 :=
  (C9_theorem pxC9 pxC9).2.2.2.2.2.1 (by decide) (by decide) (by decide) (by decide)
    (Or.inr (Or.inl (by decide)))

end Mandry
